import Mathlib

/-!
Verification of the hybrid persistence layer of the gantt scheduling board
(src/services/apiService.ts and the related versions src/unnamed/part_000,
part_001, part_002).

Shallow embedding conventions:
* JavaScript `Date` values are embedded as `Int` (an abstract instant);
  `new Date(serializedValue)` revival is the identity on that value, and
  `dateUtils.addDays` is integer addition at that granularity.
* `localStorage` under the fixed data key is `LocalStore := Option StoredVal`:
  `none` is "no record", `StoredVal.malformed` a record `JSON.parse` refuses,
  `StoredVal.record r` a parsed object.
* Fields JavaScript leaves `undefined` are `Option` values. An absent
  `tasks` array on a parsed project is `none`; the part_002 reader that
  leaves such a field untouched is modelled with `Option.getD []` (the
  difference never matters to the theorems below, which only use stores
  written by `writeLocalData`, where the arrays are always present).
* Functions that can `throw` return `Except`; the others are total.
-/

namespace Gantt

/-! ### Data model (src/unnamed/part_002, types section) -/

structure Task where
  id : String
  name : String
  startDate : Int
  endDate : Int
  color : String
  employeeId : String
  progress : Int
  description : Option String
deriving Repr, DecidableEq

structure Project where
  id : String
  name : String
  tasks : List Task
deriving Repr, DecidableEq

structure Employee where
  id : String
  name : String
  departmentId : String
deriving Repr, DecidableEq

structure Department where
  id : String
  name : String
  employees : List Employee
deriving Repr, DecidableEq

/-- The unit of persistence for the local backend (interface `AppData`). -/
structure AppData where
  projects : List Project
  departments : List Department
  employees : List Employee
deriving Repr, DecidableEq

/-- dateUtils.addDays, at the embedding granularity of `Int` instants. -/
def addDays (date : Int) (days : Int) : Int := date + days

/-! ### Local storage representation -/

/-- A task object as it sits in the parsed JSON record (dates still in their
serialized form, embedded as the same `Int`). -/
structure RawTask where
  id : String
  name : String
  startDate : Int
  endDate : Int
  color : String
  employeeId : String
  progress : Int
  description : Option String
deriving Repr, DecidableEq

/-- A project object in the parsed record; `tasks` may be absent. -/
structure RawProject where
  id : String
  name : String
  tasks : Option (List RawTask)
deriving Repr, DecidableEq

/-- The parsed record under the data key. `projects` is `none` when the field
is missing or not an array (the structural-validation failure the readers
check for). `departments` and `employees` are carried as plain lists: every
record produced by `writeLocalData` has them. -/
structure RawRecord where
  projects : Option (List RawProject)
  departments : List Department
  employees : List Employee
deriving Repr, DecidableEq

inductive StoredVal where
  | malformed : StoredVal
  | record : RawRecord → StoredVal
deriving Repr, DecidableEq

/-- The browser storage slot for the fixed data key. -/
abbrev LocalStore := Option StoredVal

def serializeTask (t : Task) : RawTask :=
  { id := t.id, name := t.name, startDate := t.startDate, endDate := t.endDate,
    color := t.color, employeeId := t.employeeId, progress := t.progress,
    description := t.description }

def serializeProject (p : Project) : RawProject :=
  { id := p.id, name := p.name, tasks := some (p.tasks.map serializeTask) }

def serializeData (d : AppData) : RawRecord :=
  { projects := some (d.projects.map serializeProject),
    departments := d.departments, employees := d.employees }

/-- `writeLocalData`: `localStorage.setItem(DATA_KEY, JSON.stringify(data))`. -/
def writeLocalData (d : AppData) : LocalStore :=
  some (StoredVal.record (serializeData d))

/-- Revival of one task: `new Date` on the serialized dates (identity here). -/
def reviveTask (t : RawTask) : Task :=
  { id := t.id, name := t.name, startDate := t.startDate, endDate := t.endDate,
    color := t.color, employeeId := t.employeeId, progress := t.progress,
    description := t.description }

/-- apiService.ts revival of one project: a missing `tasks` array is
normalized to an empty array. -/
def reviveProject (p : RawProject) : Project :=
  { id := p.id, name := p.name, tasks := (p.tasks.getD []).map reviveTask }

/-! ### Seed datasets -/

def initialEmployees : List Employee :=
  [ { id := "e1", name := "앨리스 존슨", departmentId := "d1" },
    { id := "e2", name := "밥 윌리엄스", departmentId := "d1" },
    { id := "e3", name := "찰리 브라운", departmentId := "d2" },
    { id := "e4", name := "다이아나 밀러", departmentId := "d2" },
    { id := "e5", name := "이든 데이비스", departmentId := "d3" } ]

def initialDepartments : List Department :=
  [ { id := "d1", name := "엔지니어링",
      employees := initialEmployees.filter (fun e => e.departmentId == "d1") },
    { id := "d2", name := "마케팅",
      employees := initialEmployees.filter (fun e => e.departmentId == "d2") },
    { id := "d3", name := "제품",
      employees := initialEmployees.filter (fun e => e.departmentId == "d3") } ]

/-- apiService.ts `getInitialData` (module-level `today` passed explicitly). -/
def getInitialData (today : Int) : AppData :=
  { projects :=
      [ { id := "p1", name := "쿼터별 웹사이트 리디자인",
          tasks :=
            [ { id := "t1", name := "API 설계 및 개발",
                startDate := addDays today 1, endDate := addDays today 10,
                color := "bg-blue-500", employeeId := "e1", progress := 80,
                description := some "백엔드 API 엔드포인트." },
              { id := "t2", name := "프론트엔드 UI/UX 구현",
                startDate := addDays today 2, endDate := addDays today 12,
                color := "bg-sky-500", employeeId := "e2", progress := 50,
                description := some "React 컴포넌트 개발." },
              { id := "t3", name := "사용자 피드백 수집",
                startDate := addDays today 13, endDate := addDays today 20,
                color := "bg-purple-500", employeeId := "e5", progress := 25,
                description := some "사용성 테스트 진행." } ] } ],
    departments := initialDepartments,
    employees := initialEmployees }

/-- part_002 `getInitialData` (computes `today` per call; passed explicitly). -/
def getInitialData_p2 (today : Int) : AppData :=
  { projects :=
      [ { id := "p1", name := "샘플 프로젝트",
          tasks :=
            [ { id := "t1", name := "예시 태스크",
                startDate := addDays today 1, endDate := addDays today 10,
                color := "bg-blue-500", employeeId := "", progress := 0,
                description := none } ] } ],
    departments := [],
    employees := [] }

/-! ### Local reads -/

/-- apiService.ts `readLocalData`: on a missing record or a record whose
`projects` field is not an array, the seed is synthesized, persisted and
returned; a parse failure is caught and the seed returned without writing;
otherwise dates are revived in place and a missing tasks array normalized.
Returns the data together with the store as the call leaves it. -/
def readLocalData (ls : LocalStore) (today : Int) : AppData × LocalStore :=
  match ls with
  | none =>
      let d := getInitialData today
      (d, writeLocalData d)
  | some StoredVal.malformed => (getInitialData today, ls)
  | some (StoredVal.record r) =>
      match r.projects with
      | none =>
          let d := getInitialData today
          (d, writeLocalData d)
      | some ps =>
          ({ projects := ps.map reviveProject,
             departments := r.departments, employees := r.employees }, ls)

/-- part_002 `readLocalData`: returns the seed on a missing or unparsable
record without persisting anything, and performs no structural validation
of the `projects` field (an absent array is modelled as `[]`). -/
def readLocalData_p2 (ls : LocalStore) (today : Int) : AppData × LocalStore :=
  match ls with
  | none => (getInitialData_p2 today, ls)
  | some StoredVal.malformed => (getInitialData_p2 today, ls)
  | some (StoredVal.record r) =>
      ({ projects := (r.projects.getD []).map reviveProject,
         departments := r.departments, employees := r.employees }, ls)

/-! ### Generic list helpers used by the mutation embeddings

JavaScript mutates the object returned by `Array.prototype.find`, i.e. the
first element satisfying the predicate; `setFirst` is that mutation. -/

def setFirst (f : α → Bool) (g : α → α) : List α → List α
  | [] => []
  | a :: as => if f a then g a :: as else a :: setFirst f g as

/-! ### Sorting (the remote rows returned under an ORDER BY clause) -/

def insertBy (le : α → α → Bool) (a : α) : List α → List α
  | [] => [a]
  | b :: bs => if le a b then a :: b :: bs else b :: insertBy le a bs

def sortBy (le : α → α → Bool) : List α → List α
  | [] => []
  | a :: as => insertBy le a (sortBy le as)

/-! ### Remote backend model

The remote relational store, the structured errors its client reports, and
the subset of query shapes the adapters issue. A missing optional `position`
column is part of the schema state (`projectsHavePosition`,
`tasksHavePosition`); ordering by it then fails with the PostgreSQL
undefined-column error, exactly the failure the schema-drift guard must
recognize. Any other backend failure (permission, network, ...) is injected
through the per-operation `...Error` slots. -/

structure SupaError where
  code : String
  message : String
deriving Repr, DecidableEq

/-- The structured error PostgreSQL reports for ORDER BY on an absent
column: code 42703 (undefined_column). -/
def undefinedColumnError (table col : String) : SupaError :=
  { code := "42703",
    message := "column " ++ table ++ "." ++ col ++ " does not exist" }

/-- A row of the remote `projects` table. `position` carries a value only
when the column exists (`projectsHavePosition`). -/
structure ProjectRow where
  id : String
  name : String
  createdAt : Int
  position : Int
deriving Repr, DecidableEq

/-- A row of the remote `tasks` table. -/
structure TaskRow where
  id : String
  projectId : String
  name : String
  startDate : Int
  endDate : Int
  color : String
  employeeId : String
  progress : Int
  description : Option String
  position : Int
deriving Repr, DecidableEq

structure RemoteDB where
  projectRows : List ProjectRow
  taskRows : List TaskRow
  projectsHavePosition : Bool
  tasksHavePosition : Bool
  projectsSelectError : Option SupaError
  tasksSelectError : Option SupaError
  projectsUpdateError : Option SupaError
  tasksUpdateError : Option SupaError
  projectsUpsertError : Option SupaError
  tasksUpsertError : Option SupaError
  tasksDeleteError : Option SupaError
deriving Repr, DecidableEq

/-- Whether the second list starts with the first one. -/
def leadsWith [DecidableEq α] : List α → List α → Bool
  | [], _ => true
  | _ :: _, [] => false
  | a :: as, b :: bs => a == b && leadsWith as bs

/-- Whether the first list occurs contiguously inside the second one. -/
def containsSeq [DecidableEq α] (sub : List α) : List α → Bool
  | [] => leadsWith sub []
  | b :: bs => leadsWith sub (b :: bs) || containsSeq sub bs

/-- JavaScript `String.prototype.includes`. -/
def strIncludes (s sub : String) : Bool :=
  containsSeq sub.data s.data

/-- JavaScript `String.prototype.toLowerCase` (character-wise). -/
def lowerStr (s : String) : String :=
  String.mk (s.data.map Char.toLower)

/-- part_002 `isMissingColumnError`: the structured undefined-column code, or
a case-insensitive message match on the word column and the column name. -/
def isMissingColumnError (e : SupaError) (columnName : String) : Bool :=
  e.code == "42703" ||
    (strIncludes (lowerStr e.message) "column" &&
      strIncludes (lowerStr e.message) (lowerStr columnName))

/-- `from('projects').select('*')` with either the position-first ORDER BY
pair or the created_at fallback. -/
def queryProjects (db : RemoteDB) (byPosition : Bool) :
    Except SupaError (List ProjectRow) :=
  match db.projectsSelectError with
  | some e => Except.error e
  | none =>
      if byPosition && !db.projectsHavePosition then
        Except.error (undefinedColumnError "projects" "position")
      else if byPosition then
        Except.ok (sortBy
          (fun a b => a.position < b.position ||
            (a.position == b.position && a.createdAt ≤ b.createdAt))
          db.projectRows)
      else
        Except.ok (sortBy (fun a b => a.createdAt ≤ b.createdAt) db.projectRows)

/-- `from('tasks').select('*')` with either the position-first ORDER BY pair
or the id fallback. -/
def queryTasks (db : RemoteDB) (byPosition : Bool) :
    Except SupaError (List TaskRow) :=
  match db.tasksSelectError with
  | some e => Except.error e
  | none =>
      if byPosition && !db.tasksHavePosition then
        Except.error (undefinedColumnError "tasks" "position")
      else if byPosition then
        Except.ok (sortBy
          (fun a b => a.position < b.position ||
            (a.position == b.position && a.id ≤ b.id))
          db.taskRows)
      else
        Except.ok (sortBy (fun a b => a.id ≤ b.id) db.taskRows)

/-- Mapping one remote task row to the application shape. -/
def mapTaskRow (t : TaskRow) : Task :=
  { id := t.id, name := t.name, startDate := t.startDate, endDate := t.endDate,
    color := t.color, employeeId := t.employeeId, progress := t.progress,
    description := t.description }

/-- The client-side two-query join: every fetched task row whose project_id
matches is nested under its project. -/
def joinProjects (projectsData : List ProjectRow) (tasksData : List TaskRow) :
    List Project :=
  projectsData.map fun p =>
    { id := p.id, name := p.name,
      tasks := (tasksData.filter (fun t => t.projectId == p.id)).map mapTaskRow }

/-- part_002 `fetchTasksForProjects`: position-ordered task read with the
id-ordered retry when the guard recognizes a missing position column. -/
def fetchTasksForProjects (db : RemoteDB) (projectsData : List ProjectRow) :
    Except SupaError (List Project) :=
  match queryTasks db true with
  | Except.error tError =>
      if isMissingColumnError tError "position" then
        match queryTasks db false with
        | Except.error fError => Except.error fError
        | Except.ok fallbackData => Except.ok (joinProjects projectsData fallbackData)
      else Except.error tError
  | Except.ok data => Except.ok (joinProjects projectsData data)

/-- part_002 `getProjects`, remote branch: position-ordered project read with
the created_at-ordered retry when the guard recognizes a missing position
column; any other error is rethrown. -/
def getProjectsRemote (db : RemoteDB) : Except SupaError (List Project) :=
  match queryProjects db true with
  | Except.error pError =>
      if isMissingColumnError pError "position" then
        match queryProjects db false with
        | Except.error fError => Except.error fError
        | Except.ok fallbackData => fetchTasksForProjects db fallbackData
      else Except.error pError
  | Except.ok data => fetchTasksForProjects db data

/-- apiService.ts `getProjects`, remote branch: created_at-ordered project
read, unordered task read, no fallback handling. -/
def getProjectsRemote_api (db : RemoteDB) : Except SupaError (List Project) :=
  match queryProjects db false with
  | Except.error e => Except.error e
  | Except.ok projectsData =>
      match db.tasksSelectError with
      | some e => Except.error e
      | none => Except.ok (joinProjects projectsData db.taskRows)

/-- `from('projects').update({name}).eq('id', projectId)` followed by a
throw on any error (both apiService.ts and part_002 `updateProject`). -/
def updateProjectRemote (db : RemoteDB) (projectId projectName : String) :
    Except SupaError (RemoteDB × Project) :=
  match db.projectsUpdateError with
  | some e => Except.error e
  | none =>
      Except.ok
        ({ db with projectRows := db.projectRows.map fun r =>
              if r.id == projectId then { r with name := projectName } else r },
         { id := projectId, name := projectName, tasks := [] })

/-- One `(id, name, position)` upsert into the projects table; a fresh row
takes `created_at default now()`. -/
def upsertProjectRow (now : Int) (rows : List ProjectRow)
    (u : String × String × Int) : List ProjectRow :=
  if rows.any (fun r => r.id == u.1) then
    rows.map fun r =>
      if r.id == u.1 then { r with name := u.2.1, position := u.2.2 } else r
  else rows ++ [{ id := u.1, name := u.2.1, createdAt := now, position := u.2.2 }]

/-- The batch `(id, name, position)` upsert of `updateProjects`; it fails
wholesale when the position column is absent or a backend error is
injected, and succeeds row by row otherwise. -/
def upsertProjectPositions (now : Int) (db : RemoteDB)
    (updates : List (String × String × Int)) : RemoteDB × Option SupaError :=
  match db.projectsUpsertError with
  | some e => (db, some e)
  | none =>
      if db.projectsHavePosition then
        ({ db with projectRows := updates.foldl (upsertProjectRow now) db.projectRows },
         none)
      else (db, some (undefinedColumnError "projects" "position"))

/-- One `(id, project_id, position)` upsert into the tasks table; columns the
batch does not carry keep PostgreSQL defaults on a fresh row. -/
def upsertTaskRow (rows : List TaskRow) (u : String × String × Int) :
    List TaskRow :=
  if rows.any (fun r => r.id == u.1) then
    rows.map fun r =>
      if r.id == u.1 then { r with projectId := u.2.1, position := u.2.2 } else r
  else
    rows ++ [{ id := u.1, projectId := u.2.1, name := "", startDate := 0,
               endDate := 0, color := "", employeeId := "", progress := 0,
               description := none, position := u.2.2 }]

/-- The batch `(id, project_id, position)` upsert of `updateTaskPositions`. -/
def upsertTaskPositions (db : RemoteDB)
    (updates : List (String × String × Int)) : RemoteDB × Option SupaError :=
  match db.tasksUpsertError with
  | some e => (db, some e)
  | none =>
      if db.tasksHavePosition then
        ({ db with taskRows := updates.foldl upsertTaskRow db.taskRows }, none)
      else (db, some (undefinedColumnError "tasks" "position"))

/-- part_002 `updateProjects`, remote branch: builds the positional batch and
upserts it; an upsert error that the guard does not recognize as a missing
position column is only logged, and the call resolves with the given list in
every case. -/
def updateProjectsRemote (now : Int) (db : RemoteDB) (projects : List Project) :
    Except SupaError (RemoteDB × List Project) :=
  let updates := (projects.enum.map fun ip => (ip.2.id, ip.2.name, (ip.1 : Int)))
  let dbe := upsertProjectPositions now db updates
  Except.ok (dbe.1, projects)

/-- part_002 `updateTaskPositions`, remote branch: builds the positional
batch and upserts it; an unrecognized upsert error is only logged, and the
call always resolves. -/
def updateTaskPositionsRemote (db : RemoteDB) (projectId : String)
    (tasks : List Task) : Except SupaError RemoteDB :=
  let updates := (tasks.enum.map fun it => (it.2.id, projectId, (it.1 : Int)))
  let dbe := upsertTaskPositions db updates
  Except.ok dbe.1

/-! ### Connection bootstrap / mode selector -/

/-- The constructed remote client handle. -/
structure SupaClient where
  url : String
  key : String
deriving Repr, DecidableEq

/-- The compiled-in/environment configuration the module resolves at load
(`GLOBAL_SUPABASE_URL`, `GLOBAL_SUPABASE_KEY`), plus whether `createClient`
succeeds for a given pair (its try/catch). In part_000/part_002 the globals
are never empty: hardcoded fallback constants back them up. -/
structure ConnEnv where
  globalUrl : String
  globalKey : String
  createOk : String → String → Bool

/-- The process-wide mutable connection state: the client handle, the
remote-mode flag, and the persisted `{url, key}` configuration record. -/
structure ConnState where
  client : Option SupaClient
  useSupabase : Bool
  storedConfig : Option SupaClient
deriving Repr, DecidableEq

/-- JavaScript `a || b` on strings (empty string is falsy). -/
def strOr (a b : String) : String := if a.isEmpty then b else a

/-- apiService.ts / part_000 `initSupabase`: the global configuration takes
precedence over the arguments (`GLOBAL || url`); with both targets nonempty
the client is constructed, the flag set, and the pair persisted only when no
global url exists; on construction failure only the flag is dropped; with an
empty target the client and flag are cleared and the persisted record
removed unless a global url exists. -/
def initSupabase (env : ConnEnv) (url key : String) (s : ConnState) : ConnState :=
  let targetUrl := strOr env.globalUrl url
  let targetKey := strOr env.globalKey key
  if !targetUrl.isEmpty && !targetKey.isEmpty then
    if env.createOk targetUrl targetKey then
      { client := some { url := targetUrl, key := targetKey },
        useSupabase := true,
        storedConfig :=
          if env.globalUrl.isEmpty then some { url := targetUrl, key := targetKey }
          else s.storedConfig }
    else { s with useSupabase := false }
  else
    { client := none, useSupabase := false,
      storedConfig := if env.globalUrl.isEmpty then none else s.storedConfig }

/-- part_002 `initSupabase`: identical except the arguments take precedence
over the global configuration (`url || GLOBAL`). -/
def initSupabase_p2 (env : ConnEnv) (url key : String) (s : ConnState) : ConnState :=
  let targetUrl := strOr url env.globalUrl
  let targetKey := strOr key env.globalKey
  if !targetUrl.isEmpty && !targetKey.isEmpty then
    if env.createOk targetUrl targetKey then
      { client := some { url := targetUrl, key := targetKey },
        useSupabase := true,
        storedConfig :=
          if env.globalUrl.isEmpty then some { url := targetUrl, key := targetKey }
          else s.storedConfig }
    else { s with useSupabase := false }
  else
    { client := none, useSupabase := false,
      storedConfig := if env.globalUrl.isEmpty then none else s.storedConfig }

/-- The part_000/part_002 compiled-in fallback configuration: the globals
resolve to the hardcoded constants whenever no environment value overrides
them, so they are never empty. -/
def fallbackEnv : ConnEnv :=
  { globalUrl := "https://jvvqausidqgjtjteemyg.supabase.co",
    globalKey := "sb_publishable_Xjitm41vvj5TDVK8m302mg_i8DZT9AM",
    createOk := fun _ _ => true }

/-- The `useSupabase && supabase` dispatch guard of every facade operation. -/
def remoteActive (s : ConnState) : Bool :=
  s.useSupabase && s.client.isSome

/-- apiService.ts `getProjects` as dispatched by the facade: the remote
branch when the flag and handle are set, otherwise the local read. -/
def getProjectsApi (s : ConnState) (db : RemoteDB) (ls : LocalStore)
    (today : Int) : Except SupaError (List Project) × LocalStore :=
  if remoteActive s then (getProjectsRemote_api db, ls)
  else
    let dls := readLocalData ls today
    (Except.ok dls.1.projects, dls.2)

/-! ### Local CRUD operations (dataset level)

Each local branch is `readLocalData` → a dataset transformation →
`writeLocalData`; the transformations below are those bodies. -/

/-- The result object `{id}` the delete operations resolve with. -/
structure DeleteResult where
  id : String
deriving Repr, DecidableEq

/-- apiService.ts `updateProject`, local branch: rename the found project or
throw when it is absent. -/
def updateProjectLocal (d : AppData) (projectId projectName : String) :
    Except String (AppData × Project) :=
  match d.projects.find? (fun p => p.id == projectId) with
  | some p =>
      let ps := setFirst (fun q => q.id == projectId)
        (fun q => { q with name := projectName }) d.projects
      Except.ok ({ d with projects := ps }, { p with name := projectName })
  | none => Except.error "Project not found"

/-- part_002 `updateProject`, local branch: rename the found project when it
exists, write back in every case, and resolve with a synthetic object; no
error on an absent target. -/
def updateProjectLocal_p2 (d : AppData) (projectId projectName : String) :
    AppData × Project :=
  let ps := setFirst (fun q => q.id == projectId)
    (fun q => { q with name := projectName }) d.projects
  ({ d with projects := ps },
   { id := projectId, name := projectName, tasks := [] })

/-- Both variants `deleteProject`, local branch: filter the project out and
resolve with its id; no error on an absent target. -/
def deleteProjectLocal (d : AppData) (projectId : String) :
    AppData × DeleteResult :=
  ({ d with projects := d.projects.filter (fun p => p.id != projectId) },
   { id := projectId })

/-- apiService.ts `deleteTask`, local branch: filter the task out of the
found project and resolve with the PROJECT id; no error on an absent
target. -/
def deleteTaskLocal (d : AppData) (projectId taskId : String) :
    AppData × DeleteResult :=
  let ps := setFirst (fun p => p.id == projectId)
    (fun p => { p with tasks := p.tasks.filter (fun t => t.id != taskId) })
    d.projects
  ({ d with projects := ps }, { id := projectId })

/-- part_002 `deleteTask`, local branch: same dataset effect, resolving with
the task id instead. -/
def deleteTaskLocal_p2 (d : AppData) (projectId taskId : String) :
    AppData × DeleteResult :=
  let ps := setFirst (fun p => p.id == projectId)
    (fun p => { p with tasks := p.tasks.filter (fun t => t.id != taskId) })
    d.projects
  ({ d with projects := ps }, { id := taskId })

/-- apiService.ts `deleteTask` as dispatched by the facade: the remote branch
deletes the task row and both branches resolve with `{id: projectId}`. -/
def deleteTaskApi (s : ConnState) (db : RemoteDB) (d : AppData)
    (projectId taskId : String) :
    Except SupaError ((RemoteDB × AppData) × DeleteResult) :=
  if remoteActive s then
    match db.tasksDeleteError with
    | some e => Except.error e
    | none =>
        Except.ok
          (({ db with taskRows := db.taskRows.filter (fun t => t.id != taskId) }, d),
           { id := projectId })
  else
    let dr := deleteTaskLocal d projectId taskId
    Except.ok ((db, dr.1), dr.2)

/-- part_000 `deleteDepartment`, local branch: remove the department and
every employee referencing it. -/
def deleteDepartmentLocal (d : AppData) (depId : String) : AppData :=
  { d with
    departments := d.departments.filter (fun dep => dep.id != depId),
    employees := d.employees.filter (fun e => e.departmentId != depId) }

/-- part_002 `deleteDepartment`, local branch: remove the department only;
its employees stay in the stored employees list. -/
def deleteDepartmentLocal_p2 (d : AppData) (depId : String) : AppData :=
  { d with departments := d.departments.filter (fun dep => dep.id != depId) }

/-! ### Task creation and update -/

/-- The caller-supplied task data of `addTask` (`Omit<Task, id | color |
progress>`). -/
structure NewTaskData where
  name : String
  startDate : Int
  endDate : Int
  employeeId : String
  description : Option String
deriving Repr, DecidableEq

/-- The color palette of apiService.ts `addTask`. -/
def taskColors : List String :=
  ["bg-rose-500", "bg-amber-500", "bg-lime-500", "bg-cyan-500",
   "bg-fuchsia-500", "bg-orange-500"]

/-- apiService.ts task identifier: prefix, `Date.now()` timestamp, and the
`Math.random().toString(36)` suffix. -/
def genTaskId (nowMs : Int) (randSuffix : String) : String :=
  "task-" ++ toString nowMs ++ "-" ++ randSuffix

/-- part_002 task identifier: prefix and timestamp only. -/
def genTaskId_p2 (nowMs : Int) : String :=
  "task-" ++ toString nowMs

/-- apiService.ts `addTask` new-task object: generated id, random palette
color (the draw embedded as an index), progress 0. -/
def mkNewTask (nowMs : Int) (randSuffix : String) (colorIdx : Nat)
    (td : NewTaskData) : Task :=
  { id := genTaskId nowMs randSuffix,
    name := td.name, startDate := td.startDate, endDate := td.endDate,
    color := taskColors.getD (colorIdx % taskColors.length) "bg-rose-500",
    employeeId := td.employeeId, progress := 0, description := td.description }

/-- part_002 `addTask` new-task object: timestamp-only id, fixed color,
progress 0. -/
def mkNewTask_p2 (nowMs : Int) (td : NewTaskData) : Task :=
  { id := genTaskId_p2 nowMs,
    name := td.name, startDate := td.startDate, endDate := td.endDate,
    color := "bg-blue-500",
    employeeId := td.employeeId, progress := 0, description := td.description }

/-- apiService.ts `addTask`, local branch: push onto the found project or
throw when the project is absent. -/
def addTaskLocal (nowMs : Int) (randSuffix : String) (colorIdx : Nat)
    (d : AppData) (projectId : String) (td : NewTaskData) :
    Except String (AppData × Task) :=
  let newTask := mkNewTask nowMs randSuffix colorIdx td
  match d.projects.find? (fun p => p.id == projectId) with
  | some _ =>
      let ps := setFirst (fun p => p.id == projectId)
        (fun p => { p with tasks := p.tasks ++ [newTask] }) d.projects
      Except.ok ({ d with projects := ps }, newTask)
  | none => Except.error ("Project " ++ projectId ++ " not found in local storage")

/-- part_002 `addTask`, local branch: push onto the found project when it
exists; no error on an absent target. -/
def addTaskLocal_p2 (nowMs : Int) (d : AppData) (projectId : String)
    (td : NewTaskData) : AppData × Task :=
  let newTask := mkNewTask_p2 nowMs td
  let ps := setFirst (fun p => p.id == projectId)
    (fun p => { p with tasks := p.tasks ++ [newTask] }) d.projects
  ({ d with projects := ps }, newTask)

/-- The caller patch of `updateTask` (`Partial<Omit<Task, id>>`); a `some`
field is a supplied property. -/
structure TaskPatch where
  name : Option String := none
  startDate : Option Int := none
  endDate : Option Int := none
  color : Option String := none
  employeeId : Option String := none
  progress : Option Int := none
  description : Option String := none
deriving Repr, DecidableEq

/-- `Object.assign(task, taskUpdate)`: every supplied property overwrites. -/
def applyAssign (t : Task) (p : TaskPatch) : Task :=
  { id := t.id,
    name := p.name.getD t.name,
    startDate := p.startDate.getD t.startDate,
    endDate := p.endDate.getD t.endDate,
    color := p.color.getD t.color,
    employeeId := p.employeeId.getD t.employeeId,
    progress := p.progress.getD t.progress,
    description := match p.description with
      | some s => some s
      | none => t.description }

/-- The remote `updates` object of `updateTask` applied to a task row: name
and employeeId under a truthiness check (an empty string is skipped), dates
under presence (a Date object is always truthy), progress and description
under an explicit defined-ness check; color is never part of the update. -/
def applyRemoteTaskUpdate (p : TaskPatch) (r : TaskRow) : TaskRow :=
  { r with
    name := match p.name with
      | some n => if n.isEmpty then r.name else n
      | none => r.name,
    startDate := p.startDate.getD r.startDate,
    endDate := p.endDate.getD r.endDate,
    employeeId := match p.employeeId with
      | some eId => if eId.isEmpty then r.employeeId else eId
      | none => r.employeeId,
    progress := p.progress.getD r.progress,
    description := match p.description with
      | some s => some s
      | none => r.description }

/-- The first task with the given id inside the first project with the given
id (`data.projects.find(...)` then `project?.tasks.find(...)`). -/
def findTask (d : AppData) (projectId taskId : String) : Option Task :=
  match d.projects.find? (fun p => p.id == projectId) with
  | some p => p.tasks.find? (fun t => t.id == taskId)
  | none => none

/-- apiService.ts `updateTask`, local branch: `Object.assign` onto the found
task and write back, or throw when project or task is absent. -/
def updateTaskLocal (d : AppData) (projectId taskId : String) (p : TaskPatch) :
    Except String (AppData × Task) :=
  match d.projects.find? (fun pr => pr.id == projectId) with
  | none => Except.error "Task not found"
  | some pr =>
      match pr.tasks.find? (fun t => t.id == taskId) with
      | none => Except.error "Task not found"
      | some t =>
          let t2 := applyAssign t p
          let ps := setFirst (fun q => q.id == projectId)
            (fun q =>
              let ts := setFirst (fun x => x.id == taskId) (fun _ => t2) q.tasks
              { q with tasks := ts })
            d.projects
          Except.ok ({ d with projects := ps }, t2)


/-! ### Concrete example data (used by counterexamples and witnesses) -/

/-- A remote store whose optional position column is absent from both tables
and that reports no other backend failure. -/
def dbC1 : RemoteDB :=
  { projectRows :=
      [ { id := "pB", name := "B", createdAt := 5, position := 0 },
        { id := "pA", name := "A", createdAt := 3, position := 1 } ],
    taskRows :=
      [ { id := "tX", projectId := "pA", name := "X", startDate := 0,
          endDate := 1, color := "bg-blue-500", employeeId := "e1",
          progress := 0, description := none, position := 0 } ],
    projectsHavePosition := false, tasksHavePosition := false,
    projectsSelectError := none, tasksSelectError := none,
    projectsUpdateError := none, tasksUpdateError := none,
    projectsUpsertError := none, tasksUpsertError := none,
    tasksDeleteError := none }

/-- A backend error outside the missing-ordering-column class. -/
def permissionDenied : SupaError :=
  { code := "42501", message := "permission denied for table projects" }

/-- A remote store whose upsert writes fail with a permission error. -/
def dbPerm : RemoteDB :=
  { projectRows := [], taskRows := [],
    projectsHavePosition := true, tasksHavePosition := true,
    projectsSelectError := none, tasksSelectError := none,
    projectsUpdateError := none, tasksUpdateError := none,
    projectsUpsertError := some permissionDenied,
    tasksUpsertError := some permissionDenied,
    tasksDeleteError := none }

/-- A remote store whose selects and name updates fail with a permission
error. -/
def dbPermSel : RemoteDB :=
  { dbPerm with
    projectsSelectError := some permissionDenied,
    projectsUpdateError := some permissionDenied }

/-- A state as `initSupabase` leaves it after a successful connection. -/
def connectedState : ConnState :=
  { client := some { url := "https://jvvqausidqgjtjteemyg.supabase.co",
                     key := "sb_publishable_Xjitm41vvj5TDVK8m302mg_i8DZT9AM" },
    useSupabase := true, storedConfig := none }

/-- An environment with no compiled-in/environment configuration at all
(apiService.ts with no environment variables set). -/
def emptyEnv : ConnEnv :=
  { globalUrl := "", globalKey := "", createOk := fun _ _ => true }

/-- The disconnected state. -/
def offState : ConnState :=
  { client := none, useSupabase := false, storedConfig := none }

/-- A local dataset with one department and two employees, one of them in
that department. -/
def dataC6 : AppData :=
  { projects := [],
    departments := [ { id := "d1", name := "엔지니어링", employees := [] } ],
    employees :=
      [ { id := "e1", name := "앨리스 존슨", departmentId := "d1" },
        { id := "e3", name := "찰리 브라운", departmentId := "d2" } ] }

/-- A local dataset with a single empty project. -/
def dataC7 : AppData :=
  { projects := [ { id := "p1", name := "프로젝트", tasks := [] } ],
    departments := [], employees := [] }

/-- A local dataset with one project holding one task. -/
def dataC5 : AppData :=
  { projects :=
      [ { id := "p1", name := "프로젝트",
          tasks :=
            [ { id := "t1", name := "디자인", startDate := 10, endDate := 14,
                color := "bg-sky-500", employeeId := "e1", progress := 50,
                description := some "메모" } ] } ],
    departments := [], employees := [] }

/-- Two distinct caller task payloads. -/
def tdA : NewTaskData :=
  { name := "디자인", startDate := 0, endDate := 4, employeeId := "e1",
    description := none }

def tdB : NewTaskData :=
  { name := "개발", startDate := 1, endDate := 5, employeeId := "e2",
    description := none }

/-! ### Helper lemmas -/

theorem setFirst_of_none (f : α → Bool) (g : α → α) (l : List α)
    (h : ∀ a ∈ l, f a = false) : setFirst f g l = l := by
  induction l with
  | nil => rfl
  | cons a as ih =>
      simp only [setFirst, h a (List.mem_cons_self a as)]
      simp only [if_neg Bool.false_ne_true]
      exact congrArg (a :: ·) (ih fun b hb => h b (List.mem_cons_of_mem a hb))

theorem setFirst_congr_id (f : α → Bool) (g : α → α) (l : List α)
    (h : ∀ a ∈ l, g a = a) : setFirst f g l = l := by
  induction l with
  | nil => rfl
  | cons a as ih =>
      cases hf : f a with
      | true => simp [setFirst, hf, h a (List.mem_cons_self a as)]
      | false =>
          simp only [setFirst, hf, if_neg Bool.false_ne_true]
          exact congrArg (a :: ·) (ih fun b hb => h b (List.mem_cons_of_mem a hb))

theorem find?_setFirst (f : α → Bool) (g : α → α) (l : List α) (a : α)
    (h : l.find? f = some a) (hg : f (g a) = true) :
    (setFirst f g l).find? f = some (g a) := by
  induction l with
  | nil => simp at h
  | cons b bs ih =>
      cases hb : f b with
      | true =>
          have hba : b = a := by
            have hh := h
            rw [List.find?_cons_of_pos _ hb] at hh
            exact Option.some.inj hh
          subst hba
          simp [setFirst, hb, List.find?_cons_of_pos _ hg]
      | false =>
          have hrec : bs.find? f = some a := by
            have hh := h
            rwa [List.find?_cons_of_neg _ (by simp [hb])] at hh
          simp only [setFirst, hb, if_neg Bool.false_ne_true]
          rw [List.find?_cons_of_neg _ (by simp [hb])]
          exact ih hrec

theorem setFirst_setFirst (f : α → Bool) (g : α → α) (l : List α)
    (hf : ∀ a, f (g a) = f a) (hg : ∀ a, g (g a) = g a) :
    setFirst f g (setFirst f g l) = setFirst f g l := by
  induction l with
  | nil => rfl
  | cons a as ih =>
      cases ha : f a with
      | true => simp [setFirst, ha, hf a, hg a]
      | false =>
          simp only [setFirst, ha, if_neg Bool.false_ne_true]
          exact congrArg (a :: ·) ih

theorem perm_insertBy (le : α → α → Bool) (a : α) (l : List α) :
    List.Perm (insertBy le a l) (a :: l) := by
  induction l with
  | nil => exact List.Perm.refl _
  | cons b bs ih =>
      cases h : le a b with
      | true => simp [insertBy, h]
      | false =>
          simp only [insertBy, h, if_neg Bool.false_ne_true]
          exact List.Perm.trans (List.Perm.cons b ih) (List.Perm.swap a b bs)

theorem perm_sortBy (le : α → α → Bool) (l : List α) :
    List.Perm (sortBy le l) l := by
  induction l with
  | nil => exact List.Perm.refl _
  | cons a as ih =>
      exact List.Perm.trans (perm_insertBy le a (sortBy le as)) (List.Perm.cons a ih)


theorem isMissingColumnError_undefinedColumn (table col : String) :
    isMissingColumnError (undefinedColumnError table col) col = true := by
  simp [isMissingColumnError, undefinedColumnError]

theorem fetchTasks_ok (db : RemoteDB) (pd : List ProjectRow)
    (hts : db.tasksSelectError = none) :
    ∃ ts, fetchTasksForProjects db pd = Except.ok (joinProjects pd ts) := by
  cases htp : db.tasksHavePosition with
  | false =>
      refine ⟨sortBy (fun a b => a.id ≤ b.id) db.taskRows, ?_⟩
      simp [fetchTasksForProjects, queryTasks, hts, htp,
        isMissingColumnError_undefinedColumn]
  | true =>
      refine ⟨sortBy (fun a b => a.position < b.position ||
        (a.position == b.position && a.id ≤ b.id)) db.taskRows, ?_⟩
      simp [fetchTasksForProjects, queryTasks, hts, htp]

/-! ### C1 -/

/-- C1: in remote mode, when the position-ordered project read fails because
the optional position column is absent (an error the guard recognizes by its
structured undefined-column code or by its message), `getProjects` does not
raise that error: it retries the read ordered by the created_at fallback key
and returns all projects. -/
theorem getProjects_missing_position_fallback (db : RemoteDB)
    (hps : db.projectsSelectError = none) (hts : db.tasksSelectError = none)
    (hpos : db.projectsHavePosition = false) :
    ∃ ps, getProjectsRemote db = Except.ok ps ∧
      ps.map Project.id =
        (sortBy (fun a b => a.createdAt ≤ b.createdAt) db.projectRows).map
          ProjectRow.id ∧
      List.Perm (ps.map Project.id) (db.projectRows.map ProjectRow.id) := by
  obtain ⟨ts, hfetch⟩ :=
    fetchTasks_ok db (sortBy (fun a b => a.createdAt ≤ b.createdAt) db.projectRows) hts
  refine ⟨joinProjects (sortBy (fun a b => a.createdAt ≤ b.createdAt)
    db.projectRows) ts, ?_, ?_, ?_⟩
  · simp [getProjectsRemote, queryProjects, hps, hpos,
      isMissingColumnError_undefinedColumn, hfetch]
  · simp [joinProjects, List.map_map, Function.comp]
  · have hperm := List.Perm.map ProjectRow.id
      (perm_sortBy (fun a b => a.createdAt ≤ b.createdAt) db.projectRows)
    simpa [joinProjects, List.map_map, Function.comp] using hperm

/-- C1 witness: the fallback read on a concrete drifted store. -/
theorem getProjects_missing_position_fallback_w :
    ∃ ps, getProjectsRemote dbC1 = Except.ok ps ∧
      ps.map Project.id =
        (sortBy (fun a b => a.createdAt ≤ b.createdAt) dbC1.projectRows).map
          ProjectRow.id ∧
      List.Perm (ps.map Project.id) (dbC1.projectRows.map ProjectRow.id) :=
  getProjects_missing_position_fallback dbC1 rfl rfl rfl

/-! ### C2 -/

/-- C2 counterexample: a permission-denied upsert error — not of the
missing-ordering-column class — is absorbed by the reorder writes
`updateProjects` and `updateTaskPositions`, which resolve successfully
instead of rejecting with the error. -/
theorem updateProjects_absorbs_error_cex :
    isMissingColumnError permissionDenied "position" = false ∧
    updateProjectsRemote 0 dbPerm [] = Except.ok (dbPerm, []) ∧
    updateTaskPositionsRemote dbPerm "p1" [] = Except.ok dbPerm := by
  exact ⟨by decide, rfl, rfl⟩

/-- C2 (amended): remote read and entity-update operations reject with a
non-schema-drift backend error unchanged (`getProjects` with a select error
outside the missing-ordering-column class, `updateProject` with any update
error), but the reorder writes `updateProjects` and `updateTaskPositions`
absorb every upsert error — logging those the guard does not recognize —
and always resolve. -/
theorem remote_error_propagation (db : RemoteDB) (e : SupaError) (now : Int)
    (projects : List Project) (pid pname : String) (tasks : List Task)
    (hse : db.projectsSelectError = some e)
    (hnd : isMissingColumnError e "position" = false) :
    getProjectsRemote db = Except.error e ∧
    (∀ e2, db.projectsUpdateError = some e2 →
      updateProjectRemote db pid pname = Except.error e2) ∧
    (∃ r, updateProjectsRemote now db projects = Except.ok r) ∧
    (∃ r, updateTaskPositionsRemote db pid tasks = Except.ok r) := by
  refine ⟨?_, ?_, ⟨_, rfl⟩, ⟨_, rfl⟩⟩
  · simp [getProjectsRemote, queryProjects, hse, hnd]
  · intro e2 h2
    simp [updateProjectRemote, h2]

/-- C2 witness: the amended statement at a concrete failing store. -/
theorem remote_error_propagation_w :
    getProjectsRemote dbPermSel = Except.error permissionDenied ∧
    (∀ e2, dbPermSel.projectsUpdateError = some e2 →
      updateProjectRemote dbPermSel "p1" "이름" = Except.error e2) ∧
    (∃ r, updateProjectsRemote 0 dbPermSel [] = Except.ok r) ∧
    (∃ r, updateTaskPositionsRemote dbPermSel "p1" [] = Except.ok r) :=
  remote_error_propagation dbPermSel permissionDenied 0 [] "p1" "이름" []
    rfl (by decide)

/-! ### C3 -/

theorem reviveTask_serializeTask (t : Task) : reviveTask (serializeTask t) = t := rfl

theorem reviveProject_serializeProject (p : Project) :
    reviveProject (serializeProject p) = p := by
  have hc : reviveTask ∘ serializeTask = id := funext fun t => rfl
  show Project.mk p.id p.name ((p.tasks.map serializeTask).map reviveTask) = p
  rw [List.map_map, hc, List.map_id]

/-- The local write/read round trip: a store just written by `writeLocalData`
reads back as the same dataset without further writing. -/
theorem readLocalData_writeLocalData (d : AppData) (today : Int) :
    readLocalData (writeLocalData d) today = (d, writeLocalData d) := by
  have hc : reviveProject ∘ serializeProject = id :=
    funext fun p => reviveProject_serializeProject p
  show (AppData.mk ((d.projects.map serializeProject).map reviveProject)
      d.departments d.employees, writeLocalData d) = (d, writeLocalData d)
  rw [List.map_map, hc, List.map_id]

/-- C3 counterexample: the part_002 local read from an empty store returns
the seed but leaves the store empty — nothing is persisted, contradicting
the claimed persist step. -/
theorem readLocalData_p2_no_persist_cex :
    (readLocalData_p2 none 0).1 = getInitialData_p2 0 ∧
    (readLocalData_p2 none 0).2 = none := ⟨rfl, rfl⟩

/-- C3 (amended): in apiService.ts, a local read finding no record or a
record failing structural validation returns the non-empty seed dataset (one
project with tasks) and persists it, so a second read without intervening
writes returns the identical dataset; the read is total, so it never throws.
The part_002 variant returns its seed without persisting it. -/
theorem readLocalData_seed_and_persist (today : Int) (ls : LocalStore)
    (h : ls = none ∨ ∃ r, ls = some (StoredVal.record r) ∧ r.projects = none) :
    (readLocalData ls today).1 = getInitialData today ∧
    (readLocalData ls today).2 = writeLocalData (getInitialData today) ∧
    readLocalData (readLocalData ls today).2 today =
      (getInitialData today, (readLocalData ls today).2) ∧
    (getInitialData today).projects ≠ [] ∧
    (∀ p ∈ (getInitialData today).projects, p.tasks ≠ []) ∧
    (readLocalData_p2 none today).1 = getInitialData_p2 today ∧
    (readLocalData_p2 none today).2 = none := by
  have hread : readLocalData ls today =
      (getInitialData today, writeLocalData (getInitialData today)) := by
    rcases h with h | ⟨r, hr, hpr⟩
    · subst h; rfl
    · subst hr; simp [readLocalData, hpr]
  refine ⟨by rw [hread], by rw [hread], ?_, ?_, ?_, rfl, rfl⟩
  · rw [hread]
    exact readLocalData_writeLocalData (getInitialData today) today
  · simp [getInitialData]
  · intro p hp
    simp [getInitialData] at hp
    subst hp
    simp

/-- C3 witness: the amended statement at the empty store. -/
theorem readLocalData_seed_and_persist_w :
    (readLocalData none 0).1 = getInitialData 0 ∧
    (readLocalData none 0).2 = writeLocalData (getInitialData 0) ∧
    readLocalData (readLocalData none 0).2 0 =
      (getInitialData 0, (readLocalData none 0).2) ∧
    (getInitialData 0).projects ≠ [] ∧
    (∀ p ∈ (getInitialData 0).projects, p.tasks ≠ []) ∧
    (readLocalData_p2 none 0).1 = getInitialData_p2 0 ∧
    (readLocalData_p2 none 0).2 = none :=
  readLocalData_seed_and_persist 0 none (Or.inl rfl)

/-! ### C4 -/

/-- C4 counterexample: with the compiled-in fallback configuration of
part_000/part_002 (whose globals are never empty), `initSupabase("", "")`
after a successful connection leaves remote mode ACTIVE — under both
argument-precedence variants — instead of deactivating it. -/
theorem initSupabase_empty_keeps_remote_cex :
    (initSupabase fallbackEnv "" "" connectedState).useSupabase = true ∧
    (initSupabase_p2 fallbackEnv "" "" connectedState).useSupabase = true :=
  ⟨rfl, rfl⟩

/-- C4 (amended): when no compiled-in/environment configuration is present
(both globals empty), `initSupabase("", "")` after a successful connection
deactivates remote mode, clears the client handle and the persisted
configuration, and a subsequent list operation reads from the local backend
and returns its current contents; with a compiled-in/environment
configuration present the call instead re-activates remote mode with the
global configuration. -/
theorem initSupabase_empty_disconnects (env : ConnEnv) (s : ConnState)
    (db : RemoteDB) (ls : LocalStore) (today : Int)
    (hu : env.globalUrl = "") (hk : env.globalKey = "") :
    (initSupabase env "" "" s).useSupabase = false ∧
    (initSupabase env "" "" s).client = none ∧
    (initSupabase env "" "" s).storedConfig = none ∧
    getProjectsApi (initSupabase env "" "" s) db ls today =
      (Except.ok (readLocalData ls today).1.projects, (readLocalData ls today).2) := by
  have hinit : initSupabase env "" "" s =
      { client := none, useSupabase := false, storedConfig := none } := by
    have h1 : ("" : String).isEmpty = true := rfl
    simp [initSupabase, strOr, hu, hk, h1]
  refine ⟨by rw [hinit], by rw [hinit], by rw [hinit], ?_⟩
  rw [hinit]
  simp [getProjectsApi, remoteActive]

/-- C4 witness: the amended statement at a concrete connected state with no
global configuration. -/
theorem initSupabase_empty_disconnects_w :
    (initSupabase emptyEnv "" "" connectedState).useSupabase = false ∧
    (initSupabase emptyEnv "" "" connectedState).client = none ∧
    (initSupabase emptyEnv "" "" connectedState).storedConfig = none ∧
    getProjectsApi (initSupabase emptyEnv "" "" connectedState) dbC1 none 0 =
      (Except.ok (readLocalData none 0).1.projects, (readLocalData none 0).2) :=
  initSupabase_empty_disconnects emptyEnv connectedState dbC1 none 0 rfl rfl

theorem findTask_update_found (d : AppData) (pid tid : String) (pr : Project)
    (t t2 : Task)
    (hp : d.projects.find? (fun p => p.id == pid) = some pr)
    (htk : pr.tasks.find? (fun x => x.id == tid) = some t)
    (ht2 : (t2.id == tid) = true) :
    findTask (AppData.mk (setFirst (fun q => q.id == pid)
        (fun q => Project.mk q.id q.name
          (setFirst (fun x => x.id == tid) (fun _ => t2) q.tasks))
        d.projects) d.departments d.employees) pid tid = some t2 := by
  have h1 : (setFirst (fun q => q.id == pid)
      (fun q => Project.mk q.id q.name
        (setFirst (fun x => x.id == tid) (fun _ => t2) q.tasks))
      d.projects).find? (fun p => p.id == pid) = some (Project.mk pr.id pr.name
        (setFirst (fun x => x.id == tid) (fun _ => t2) pr.tasks)) := by
    have hpmem := List.find?_some hp
    exact find?_setFirst _ _ _ _ hp hpmem
  simp only [findTask]
  rw [h1]
  exact find?_setFirst _ _ _ _ htk ht2

/-! ### C5 -/

/-- C5: updating an existing task with a patch carrying only a progress
value leaves every other field — name, dates, assignee, description, color —
unchanged in the stored state, locally (`Object.assign` of the patch) and on
the remote row; and an explicitly supplied empty-string description is
persisted on both paths, because description is tested for defined-ness, not
truthiness. -/
theorem updateTask_progress_frame (d : AppData) (pid tid : String) (prog : Int)
    (t : Task) (h : findTask d pid tid = some t) :
    (∃ d2, updateTaskLocal d pid tid { progress := some prog } =
        Except.ok (d2, { t with progress := prog }) ∧
      findTask d2 pid tid = some { t with progress := prog }) ∧
    (∀ r : TaskRow, applyRemoteTaskUpdate { progress := some prog } r =
      { r with progress := prog }) ∧
    (∀ t2 : Task, applyAssign t2 { description := some "" } =
      { t2 with description := some "" }) ∧
    (∀ r : TaskRow, (applyRemoteTaskUpdate { description := some "" } r).description =
      some "") := by
  have hfp : ∃ pr, d.projects.find? (fun p => p.id == pid) = some pr ∧
      pr.tasks.find? (fun x => x.id == tid) = some t := by
    unfold findTask at h
    cases hp : d.projects.find? (fun p => p.id == pid) with
    | none => rw [hp] at h; exact absurd h (by simp)
    | some pr => rw [hp] at h; exact ⟨pr, rfl, h⟩
  obtain ⟨pr, hp, htk⟩ := hfp
  refine ⟨⟨AppData.mk (setFirst (fun q => q.id == pid)
      (fun q => Project.mk q.id q.name
        (setFirst (fun x => x.id == tid)
          (fun _ => applyAssign t { progress := some prog }) q.tasks))
      d.projects) d.departments d.employees, ?_, ?_⟩,
    fun r => rfl, fun t2 => rfl, fun r => rfl⟩
  · simp only [updateTaskLocal, hp, htk]
    rfl
  · have htmem := List.find?_some htk
    exact findTask_update_found d pid tid pr t
      (applyAssign t { progress := some prog }) hp htk htmem

/-- C5 witness: the frame property at a concrete dataset and task. -/
theorem updateTask_progress_frame_w :
    (∃ d2, updateTaskLocal dataC5 "p1" "t1" { progress := some 42 } =
        Except.ok (d2,
          { id := "t1", name := "디자인", startDate := 10, endDate := 14,
            color := "bg-sky-500", employeeId := "e1", progress := 42,
            description := some "메모" }) ∧
      findTask d2 "p1" "t1" = some
        { id := "t1", name := "디자인", startDate := 10, endDate := 14,
          color := "bg-sky-500", employeeId := "e1", progress := 42,
          description := some "메모" }) ∧
    (∀ r : TaskRow, applyRemoteTaskUpdate { progress := some 42 } r =
      { r with progress := 42 }) ∧
    (∀ t2 : Task, applyAssign t2 { description := some "" } =
      { t2 with description := some "" }) ∧
    (∀ r : TaskRow, (applyRemoteTaskUpdate { description := some "" } r).description =
      some "") :=
  updateTask_progress_frame dataC5 "p1" "t1" 42
    { id := "t1", name := "디자인", startDate := 10, endDate := 14,
      color := "bg-sky-500", employeeId := "e1", progress := 50,
      description := some "메모" } rfl

/-! ### C6 -/

/-- C6 counterexample: the part_002 local `deleteDepartment` removes only
the department; the employee referencing it stays in the stored dataset. -/
theorem deleteDepartment_p2_keeps_employees_cex :
    (deleteDepartmentLocal_p2 dataC6 "d1").departments = [] ∧
    (deleteDepartmentLocal_p2 dataC6 "d1").employees =
      [ { id := "e1", name := "앨리스 존슨", departmentId := "d1" },
        { id := "e3", name := "찰리 브라운", departmentId := "d2" } ] := by
  exact ⟨by decide, by decide⟩

/-- C6 (amended): the part_000 local `deleteDepartment` removes the
department and every employee referencing it from the stored dataset; the
part_002 variant removes the department but leaves the stored employees list
untouched. -/
theorem deleteDepartment_cascade (d : AppData) (depId : String) :
    (∀ e ∈ (deleteDepartmentLocal d depId).employees, e.departmentId ≠ depId) ∧
    (∀ dep ∈ (deleteDepartmentLocal d depId).departments, dep.id ≠ depId) ∧
    (deleteDepartmentLocal_p2 d depId).employees = d.employees := by
  refine ⟨?_, ?_, rfl⟩
  · intro e he
    simp only [deleteDepartmentLocal, List.mem_filter, bne_iff_ne] at he
    exact he.2
  · intro dep hdep
    simp only [deleteDepartmentLocal, List.mem_filter, bne_iff_ne] at hdep
    exact hdep.2

/-- C6 witness: the cascade at a concrete dataset, checked on the surviving
employee. -/
theorem deleteDepartment_cascade_w :
    (Employee.mk "e3" "찰리 브라운" "d2").departmentId ≠ "d1" :=
  (deleteDepartment_cascade dataC6 "d1").1
    (Employee.mk "e3" "찰리 브라운" "d2") (by decide)

/-! ### C7 -/

/-- C7 counterexample: apiService.ts local `deleteTask` with an absent task
id completes as a silent no-op — the dataset is unchanged and the call
resolves successfully instead of raising an error. -/
theorem deleteTask_absent_silent_cex :
    deleteTaskLocal dataC7 "p1" "ghost" = (dataC7, { id := "p1" }) := by
  decide

/-- C7 (amended): in the local backend the apiService.ts update operations
(`updateProject`, `updateTask`) raise an explicit error when the target is
absent, but the delete operations (`deleteProject`, `deleteTask` in both
variants) and the part_002 `updateProject` complete as silent no-ops and
resolve successfully. -/
theorem local_not_found_behavior (d : AppData) (pid tid pname : String)
    (hp : ∀ p ∈ d.projects, p.id ≠ pid) :
    updateProjectLocal d pid pname = Except.error "Project not found" ∧
    updateTaskLocal d pid tid {} = Except.error "Task not found" ∧
    updateProjectLocal_p2 d pid pname =
      (d, { id := pid, name := pname, tasks := [] }) ∧
    deleteProjectLocal d pid = (d, { id := pid }) ∧
    deleteTaskLocal d pid tid = (d, { id := pid }) ∧
    deleteTaskLocal_p2 d pid tid = (d, { id := tid }) := by
  have hfind : d.projects.find? (fun p => p.id == pid) = none :=
    List.find?_eq_none.mpr (fun p hm => by simp [hp p hm])
  have hfalse : ∀ p ∈ d.projects, (p.id == pid) = false :=
    fun p hm => beq_eq_false_iff_ne.mpr (hp p hm)
  have hset : ∀ g : Project → Project,
      setFirst (fun q => q.id == pid) g d.projects = d.projects :=
    fun g => setFirst_of_none _ g d.projects hfalse
  have hfilter : d.projects.filter (fun p => p.id != pid) = d.projects :=
    List.filter_eq_self.mpr (fun p hm => bne_iff_ne.mpr (hp p hm))
  refine ⟨?_, ?_, ?_, ?_, ?_, ?_⟩
  · unfold updateProjectLocal
    rw [hfind]
  · unfold updateTaskLocal
    rw [hfind]
  · unfold updateProjectLocal_p2
    rw [hset]
  · unfold deleteProjectLocal
    rw [hfilter]
  · unfold deleteTaskLocal
    rw [hset]
  · unfold deleteTaskLocal_p2
    rw [hset]

/-- C7 witness: the amended behavior at a concrete dataset and absent id. -/
theorem local_not_found_behavior_w :
    updateProjectLocal dataC7 "p9" "이름" = Except.error "Project not found" ∧
    updateTaskLocal dataC7 "p9" "t9" {} = Except.error "Task not found" ∧
    updateProjectLocal_p2 dataC7 "p9" "이름" =
      (dataC7, { id := "p9", name := "이름", tasks := [] }) ∧
    deleteProjectLocal dataC7 "p9" = (dataC7, { id := "p9" }) ∧
    deleteTaskLocal dataC7 "p9" "t9" = (dataC7, { id := "p9" }) ∧
    deleteTaskLocal_p2 dataC7 "p9" "t9" = (dataC7, { id := "t9" }) :=
  local_not_found_behavior dataC7 "p9" "t9" "이름" (by decide)

/-! ### C8 -/

theorem string_append_left_cancel (a s t : String) (h : a ++ s = a ++ t) :
    s = t := by
  have hd : a.data ++ s.data = a.data ++ t.data := by
    have h1 := congrArg String.data h
    simpa [String.data_append] using h1
  have h2 : s.data = t.data := List.append_cancel_left hd
  cases s
  cases t
  exact congrArg String.mk h2

theorem taskColors_getD_ne (n : Nat) (hn : n < 6) :
    taskColors.getD n "bg-rose-500" ≠ "" := by
  interval_cases n <;> decide

/-- C8 counterexample: in part_002, `addTask` builds the identifier from the
prefix and the timestamp alone, so two sequential creates with different
payloads inside the same clock millisecond receive the same identifier. -/
theorem addTask_p2_id_collision_cex :
    tdA ≠ tdB ∧
    ((addTaskLocal_p2 7 dataC7 "p1" tdA).2).id =
      ((addTaskLocal_p2 7 (addTaskLocal_p2 7 dataC7 "p1" tdA).1 "p1" tdB).2).id := by
  exact ⟨by decide, rfl⟩

/-- C8 (amended): every task created by `addTask` has progress 0 and a
non-empty color token in both variants; in apiService.ts the identifier
combines the task prefix, the timestamp and a random suffix, so two creates
in the same clock instant with different suffixes receive distinct
identifiers, while the part_002 identifier is prefix plus timestamp only and
collides within the clock resolution. -/
theorem addTask_defaults_and_ids (now : Int) (s1 s2 : String) (i : Nat)
    (td : NewTaskData) (hs : s1 ≠ s2) :
    genTaskId now s1 ≠ genTaskId now s2 ∧
    (mkNewTask now s1 i td).progress = 0 ∧
    (mkNewTask now s1 i td).color ≠ "" ∧
    (mkNewTask_p2 now td).progress = 0 ∧
    (mkNewTask_p2 now td).color ≠ "" ∧
    genTaskId_p2 now = genTaskId_p2 now := by
  refine ⟨?_, rfl, ?_, rfl,
    (by decide : ("bg-blue-500" : String) ≠ ""), rfl⟩
  · intro hcol
    exact hs (string_append_left_cancel _ s1 s2 hcol)
  · show taskColors.getD (i % taskColors.length) "bg-rose-500" ≠ ""
    have hlen : taskColors.length = 6 := rfl
    rw [hlen]
    exact taskColors_getD_ne (i % 6) (Nat.mod_lt i (by decide))

/-- C8 witness: distinct identifiers and creation defaults at a concrete
timestamp and pair of suffixes. -/
theorem addTask_defaults_and_ids_w :
    genTaskId 7 "a1b2" ≠ genTaskId 7 "z9" ∧
    (mkNewTask 7 "a1b2" 0 tdA).progress = 0 ∧
    (mkNewTask 7 "a1b2" 0 tdA).color ≠ "" ∧
    (mkNewTask_p2 7 tdA).progress = 0 ∧
    (mkNewTask_p2 7 tdA).color ≠ "" ∧
    genTaskId_p2 7 = genTaskId_p2 7 :=
  addTask_defaults_and_ids 7 "a1b2" "z9" 0 tdA (by decide)

/-! ### C9 -/

/-- C9: apiService.ts `deleteTask` always resolves with an object whose id
field equals the projectId argument — in remote and local mode alike — not
the removed task's taskId (unlike the part_002 variant, which resolves with
the task id). -/
theorem deleteTask_resolves_project_id (s : ConnState) (db : RemoteDB)
    (d : AppData) (pid tid : String) (res : (RemoteDB × AppData) × DeleteResult)
    (h : deleteTaskApi s db d pid tid = Except.ok res) :
    res.2 = { id := pid } ∧ (deleteTaskLocal_p2 d pid tid).2 = { id := tid } := by
  refine ⟨?_, rfl⟩
  unfold deleteTaskApi at h
  cases hr : remoteActive s with
  | true =>
      rw [hr] at h
      simp only [if_true] at h
      cases hd : db.tasksDeleteError with
      | some e => rw [hd] at h; exact absurd h (by simp)
      | none =>
          rw [hd] at h
          have h2 := Except.ok.inj h
          rw [← h2]
  | false =>
      rw [hr] at h
      simp only [Bool.false_eq_true, if_false] at h
      have h2 := Except.ok.inj h
      rw [← h2]
      rfl

/-- C9 witness: the resolved id at a concrete local-mode call. -/
theorem deleteTask_resolves_project_id_w :
    (((dbC1, (deleteTaskLocal dataC7 "p1" "t9").1),
        (deleteTaskLocal dataC7 "p1" "t9").2) :
      (RemoteDB × AppData) × DeleteResult).2 = { id := "p1" } ∧
    (deleteTaskLocal_p2 dataC7 "p1" "t9").2 = { id := "t9" } :=
  deleteTask_resolves_project_id offState dbC1 dataC7 "p1" "t9"
    ((dbC1, (deleteTaskLocal dataC7 "p1" "t9").1),
      (deleteTaskLocal dataC7 "p1" "t9").2) rfl

/-! ### C10 -/

theorem filter_idem (p : α → Bool) (l : List α) :
    (l.filter p).filter p = l.filter p :=
  List.filter_eq_self.mpr (fun _ ha => List.of_mem_filter ha)

/-- C10: local deletes are idempotent. With an identifier absent from the
stored dataset, `deleteProject` and `deleteTask` leave the dataset unchanged
while still resolving successfully, and for every identifier deleting twice
equals deleting once. -/
theorem local_delete_idempotent (d : AppData) (pid tid : String)
    (hpid : ∀ p ∈ d.projects, p.id ≠ pid)
    (htid : ∀ p ∈ d.projects, ∀ t ∈ p.tasks, t.id ≠ tid) :
    (deleteProjectLocal d pid).1 = d ∧
    (deleteTaskLocal_p2 d pid tid).1 = d ∧
    (∀ d2 : AppData, ∀ pid2,
      (deleteProjectLocal (deleteProjectLocal d2 pid2).1 pid2).1 =
        (deleteProjectLocal d2 pid2).1) ∧
    (∀ d2 : AppData, ∀ pid2 tid2,
      (deleteTaskLocal_p2 (deleteTaskLocal_p2 d2 pid2 tid2).1 pid2 tid2).1 =
        (deleteTaskLocal_p2 d2 pid2 tid2).1) := by
  refine ⟨?_, ?_, ?_, ?_⟩
  · unfold deleteProjectLocal
    rw [List.filter_eq_self.mpr (fun p hm => bne_iff_ne.mpr (hpid p hm))]
  · have hid : ∀ p ∈ d.projects,
        Project.mk p.id p.name (p.tasks.filter (fun t => t.id != tid)) = p := by
      intro p hm
      have hft : p.tasks.filter (fun t => t.id != tid) = p.tasks :=
        List.filter_eq_self.mpr (fun t htm => bne_iff_ne.mpr (htid p hm t htm))
      rw [hft]
    unfold deleteTaskLocal_p2
    rw [setFirst_congr_id _ _ d.projects hid]
  · intro d2 pid2
    unfold deleteProjectLocal
    rw [filter_idem]
  · intro d2 pid2 tid2
    have hg : ∀ p : Project,
        Project.mk p.id p.name ((p.tasks.filter (fun t => t.id != tid2)).filter
          (fun t => t.id != tid2)) =
        Project.mk p.id p.name (p.tasks.filter (fun t => t.id != tid2)) :=
      fun p => congrArg (Project.mk p.id p.name) (filter_idem _ _)
    show AppData.mk (setFirst (fun p => p.id == pid2)
        (fun q => Project.mk q.id q.name (q.tasks.filter (fun t => t.id != tid2)))
        (setFirst (fun p => p.id == pid2)
          (fun q => Project.mk q.id q.name (q.tasks.filter (fun t => t.id != tid2)))
          d2.projects)) d2.departments d2.employees =
      AppData.mk (setFirst (fun p => p.id == pid2)
        (fun q => Project.mk q.id q.name (q.tasks.filter (fun t => t.id != tid2)))
        d2.projects) d2.departments d2.employees
    exact congrArg (fun ps => AppData.mk ps d2.departments d2.employees)
      (setFirst_setFirst _ _ d2.projects (fun p => rfl) hg)

/-- C10 witness: unchanged dataset and idempotence at a concrete dataset and
absent identifiers. -/
theorem local_delete_idempotent_w :
    (deleteProjectLocal dataC7 "nope").1 = dataC7 ∧
    (deleteTaskLocal_p2 dataC7 "nope" "ghost").1 = dataC7 ∧
    (∀ d2 : AppData, ∀ pid2,
      (deleteProjectLocal (deleteProjectLocal d2 pid2).1 pid2).1 =
        (deleteProjectLocal d2 pid2).1) ∧
    (∀ d2 : AppData, ∀ pid2 tid2,
      (deleteTaskLocal_p2 (deleteTaskLocal_p2 d2 pid2 tid2).1 pid2 tid2).1 =
        (deleteTaskLocal_p2 d2 pid2 tid2).1) :=
  local_delete_idempotent dataC7 "nope" "ghost" (by decide) (by decide)

end Gantt
